import Mathlib

/-!
Verification of core components of the pinnacle Wayland compositor.

Each definition is a shallow embedding of a function from the repository
sources; doc comments name the Rust source file and item it embeds.
Durations and monotonic-clock instants are modelled as nanosecond counts
(natural numbers); u64 casts and arithmetic that can overflow carry an
explicit reduction modulo 2 ^ 64.
-/

namespace Pinnacle

/-! ## Frame clock (src/backend/udev/frame.rs) -/

/-- Embedding of struct FrameClock (src/backend/udev/frame.rs, lines 6-10).
The refresh interval is a NonZeroU64 in the source; positivity is carried
as a hypothesis in the theorems instead. -/
structure FrameClock where
  last_presentation_time : Option Nat
  refresh_interval_ns : Option Nat
  vrr : Bool
deriving DecidableEq

/-- Embedding of FrameClock::set_vrr (frame.rs, lines 32-39): an early
return when the flag is unchanged, otherwise the flag is stored and the
last presentation time is cleared. -/
def FrameClock.set_vrr (fc : FrameClock) (vrr : Bool) : FrameClock :=
  if fc.vrr = vrr then fc
  else { fc with vrr := vrr, last_presentation_time := none }

/-- Embedding of FrameClock::presented (frame.rs, lines 45-52): zero
timestamps are ignored, any other timestamp is stored unconditionally. -/
def FrameClock.presented (fc : FrameClock) (presentation_time : Nat) : FrameClock :=
  if presentation_time = 0 then fc
  else { fc with last_presentation_time := some presentation_time }

/-- Embedding of FrameClock::time_to_next_presentation (frame.rs, lines
55-96). The two reductions modulo 2 ^ 64 mirror the as_nanos() as u64
cast and the u64 multiplication in the source. -/
def FrameClock.time_to_next_presentation (fc : FrameClock) (now : Nat) : Nat :=
  match fc.refresh_interval_ns, fc.last_presentation_time with
  | none, _ => 0
  | some _, none => 0
  | some refresh_interval_ns, some last_presentation_time =>
    let now1 :=
      if now ≤ last_presentation_time then
        if now + refresh_interval_ns < last_presentation_time then
          last_presentation_time + refresh_interval_ns
        else
          now + refresh_interval_ns
      else now
    let ns_since_last := (now1 - last_presentation_time) % 2 ^ 64
    let ns_to_next := ((ns_since_last / refresh_interval_ns + 1) * refresh_interval_ns) % 2 ^ 64
    if fc.vrr ∧ refresh_interval_ns < ns_to_next then 0
    else last_presentation_time + ns_to_next - now1

/-- Formula the claim about time_to_next_presentation states, following the
words of the specification: the next deadline is last plus the interval
multiplied by the ceiling of the elapsed time over the interval. -/
def spec_ceil_next_presentation (last interval now : Nat) : Nat :=
  last + ((now - last + (interval - 1)) / interval) * interval - now

/-! ## Startup privilege gate (src/main.rs) -/

/-- Embedding of rustix Uid::is_root / Gid::is_root: the id is zero. -/
def id_is_root (id : Nat) : Bool := id == 0

/-- Embedding of has_elevated_privileges (src/main.rs, lines 329-344). -/
def has_elevated_privileges (uid euid gid egid : Nat) : Bool :=
  if !id_is_root euid && !id_is_root egid then false
  else if uid == euid && gid == egid then false
  else true

/-- Outcome of the privilege check at the top of main: either the process
exits (with the given process exit code) before the compositor starts, or
startup continues. -/
inductive StartupOutcome where
  | exited (code : Nat)
  | started
deriving DecidableEq

/-- Embedding of the privilege gate in main (src/main.rs, lines 128-141):
when has_elevated_privileges holds and allow_root was not passed, main
logs warnings and returns Ok(()), so the process exits with code 0;
otherwise startup continues. -/
def main_privilege_gate (uid euid gid egid : Nat) (allow_root : Bool) : StartupOutcome :=
  if has_elevated_privileges uid euid gid egid && !allow_root then .exited 0
  else .started

/-! ## Session lock (src/handlers/session_lock.rs) -/

/-- Embedding of BlankingState (src/output.rs, referenced from
src/handlers/session_lock.rs). -/
inductive BlankingState where
  | notBlanked
  | blanking
  | blanked
deriving DecidableEq

/-- Embedding of LockState (src/handlers/session_lock.rs, lines 17-26);
the SessionLocker held by Locking is identified by a number. -/
inductive LockState where
  | unlocked
  | locking (locker : Nat)
  | locked
deriving DecidableEq

/-- Embedding of LockState::is_locking (session_lock.rs, lines 33-35). -/
def LockState.is_locking : LockState → Bool
  | .locking _ => true
  | _ => false

/-- Embedding of LockState::is_unlocked (session_lock.rs, lines 41-43). -/
def LockState.is_unlocked : LockState → Bool
  | .unlocked => true
  | _ => false

/-- Embedding of LockState::is_locked (session_lock.rs, lines 49-51). -/
def LockState.is_locked : LockState → Bool
  | .locked => true
  | _ => false

/-- Per-output state visible to the session-lock machinery: the output's
blanking state and its optional lock surface (identified by a number). -/
structure OutputLockSt where
  blanking_state : BlankingState
  lock_surface : Option Nat
deriving DecidableEq

/-- Compositor state visible to the session-lock machinery: the lock
state, per-output blanking/lock-surface state, the lock surface focus,
and whether the Locking poll closure registered by Pinnacle::schedule is
outstanding. -/
structure LockWorld where
  lock_state : LockState
  outputs : List OutputLockSt
  lock_surface_focus : Option Nat
  lock_check_scheduled : Bool
deriving DecidableEq

/-- Embedding of the all-outputs-blanked test inside
SessionLockHandler::lock (session_lock.rs, lines 70-72). -/
def all_outputs_blanked (w : LockWorld) : Bool :=
  w.outputs.all (fun op => op.blanking_state == BlankingState.blanked)

/-- Embedding of the poll predicate passed to Pinnacle::schedule by
SessionLockHandler::lock (session_lock.rs, lines 69-74). -/
def lock_check_pred (w : LockWorld) : Bool :=
  !w.lock_state.is_locking || all_outputs_blanked w

/-- Embedding of the run closure passed to Pinnacle::schedule by
SessionLockHandler::lock (session_lock.rs, lines 75-86): mem::take
replaces the lock state with Unlocked, then the match restores it; in the
Locking arm locker.lock() confirms the lock to the requester. The boolean
result records whether locker.lock() was invoked. -/
def lock_check_run (w : LockWorld) : LockWorld × Bool :=
  match w.lock_state with
  | .unlocked => (w, false)
  | .locking _ => ({ w with lock_state := .locked }, true)
  | .locked => ({ w with lock_state := .locked }, false)

/-- Modelled from the spec: Pinnacle::schedule (not under src/; only its
call site in session_lock.rs is) registers a closure that the event loop
polls each cycle, running it once its predicate holds. One loop cycle of
that polling for the lock-check closure: if the closure is outstanding
and its predicate holds, run it and deregister it. -/
def lock_check_cycle (w : LockWorld) : LockWorld × Bool :=
  if w.lock_check_scheduled && lock_check_pred w then
    let r := lock_check_run w
    ({ r.1 with lock_check_scheduled := false }, r.2)
  else (w, false)

/-- Embedding of SessionLockHandler::lock (session_lock.rs, lines 59-88):
a request in the Locking or Locked state returns early; otherwise the
state becomes Locking and the poll closure is registered via
Pinnacle::schedule. -/
def SessionLockHandler.lock (w : LockWorld) (confirmation : Nat) : LockWorld :=
  if w.lock_state.is_locking || w.lock_state.is_locked then w
  else
    { w with lock_state := .locking confirmation, lock_check_scheduled := true }

/-! ## Tags and unmapped windows (src/api/tag.rs, src/handlers.rs) -/

/-- Embedding of Tag (src/tag.rs, referenced from src/api/tag.rs): a
monotonic id and a name. -/
structure Tag where
  id : Nat
  name : String
deriving DecidableEq

/-- Embedding of UnmappedState (src/window.rs, referenced from
src/handlers.rs and src/api/tag.rs), payloads elided. -/
inductive UnmappedState where
  | waitingForTags
  | awaitingRules
  | configuredAwaitingMap
deriving DecidableEq

/-- An unmapped window as the commit pipeline and the tag API see it: its
id, its unmapped state, its tag set, and the output it targets
(Window::output, which is not under src/; modelled as a field). -/
structure UnmappedWindow where
  win_id : Nat
  ustate : UnmappedState
  tags : List Tag
  target_output : Option String
deriving DecidableEq

/-- Modelled from the spec: Pinnacle::request_window_rules (not under
src/; only its call sites are) transitions an unmapped window to the
awaiting-rules state and hands it to the window-rule gate. -/
def request_window_rules (u : UnmappedWindow) : UnmappedWindow :=
  { u with ustate := .awaitingRules }

/-- Modelled from the spec: Window::set_tags_to_output (not under src/)
assigns the window tags from the given output's tag list. -/
def set_tags_to_output (u : UnmappedWindow) (output_tags : List Tag) : UnmappedWindow :=
  { u with tags := output_tags }

/-- Result of the unmapped-window arm of CompositorHandler::commit: the
window is either removed from the unmapped pool and passed to
map_new_window, or pushed back into the unmapped pool. -/
inductive CommitOutcome where
  | mapAttempted (w : UnmappedWindow)
  | stillQueued (w : UnmappedWindow)
deriving DecidableEq

/-- Embedding of the unmapped-window arm of CompositorHandler::commit
(src/handlers.rs, lines 145-213). has_buffer is the result of
with_renderer_surface_state and focused_output_tags is the focused
output's tag list when a focused output exists. With a buffer attached
the window is removed from the pool and map_new_window is invoked
unconditionally; the FIXME at handlers.rs lines 190-191 records that this
crashes when the window has no tags. Without a buffer, a waiting-for-tags
window is offered tags from its target output or from the focused output
when that output has tags, and the window returns to the pool. -/
def commit_unmapped (has_buffer : Bool) (focused_output_tags : Option (List Tag))
    (w : UnmappedWindow) : CommitOutcome :=
  if has_buffer then
    .mapAttempted w
  else
    let w1 :=
      if w.ustate == .waitingForTags then
        if w.target_output.isSome then request_window_rules w
        else
          match focused_output_tags with
          | some tags =>
            if !tags.isEmpty then request_window_rules (set_tags_to_output w tags)
            else w
          | none => w
      else w
    .stillQueued w1

/-- Per-output tag state: the output's name and its ordered tag list. -/
structure OutputTagsSt where
  name : String
  tags : List Tag
deriving DecidableEq

/-- Compositor state visible to the tag API: outputs with their tag
lists, the unmapped-window pool, the mapped windows' tag sets, the saved
per-connector tag sets, and the monotonic tag-id counter backing
Tag::new. -/
structure TagWorld where
  outputs : List OutputTagsSt
  unmapped_windows : List UnmappedWindow
  windows : List (List Tag)
  connector_saved_tags : List (String × List Tag)
  next_tag_id : Nat
deriving DecidableEq

/-- Embedding of the Tag::new calls in add (src/api/tag.rs, line 80):
each call draws a fresh id from the monotonic counter. -/
def make_new_tags : Nat → List String → List Tag
  | _, [] => []
  | n, tag_name :: rest => Tag.mk n tag_name :: make_new_tags (n + 1) rest

/-- Embedding of add (src/api/tag.rs, lines 67-105). When the named
output does not exist the state is returned unchanged with no new tags.
Otherwise the new tags are appended to the output (OutputState::add_tags
is not under src/; the spec says tags are appended), and when the new tag
list is non-empty every unmapped window in the waiting-for-tags state has
its tag set replaced by the first new tag and is handed to the rule gate
regardless of which output it targets. -/
def TagApi.add (st : TagWorld) (tag_names : List String) (output_name : String) :
    TagWorld × List Tag :=
  match st.outputs.find? (fun op => op.name == output_name) with
  | none => (st, [])
  | some _ =>
    let new_tags := make_new_tags st.next_tag_id tag_names
    let outputs := st.outputs.map (fun op =>
      if op.name == output_name then { op with tags := op.tags ++ new_tags } else op)
    let unmapped :=
      if !new_tags.isEmpty then
        st.unmapped_windows.map (fun u =>
          if u.ustate == .waitingForTags then
            request_window_rules { u with tags := new_tags.head?.toList }
          else u)
      else st.unmapped_windows
    ({ st with
        outputs := outputs
        unmapped_windows := unmapped
        next_tag_id := st.next_tag_id + tag_names.length },
      new_tags)

/-- Embedding of the IndexSet::shift_remove loops in remove
(src/api/tag.rs): each tag to remove is erased from an ordered tag set,
the order of the remaining tags being preserved. -/
def shift_remove_all (tags : List Tag) (to_remove : List Tag) : List Tag :=
  to_remove.foldl (fun acc t => acc.erase t) tags

/-- Embedding of remove (src/api/tag.rs, lines 107-134): the tags are
removed from every mapped window, every output, and every saved connector
state. The unmapped-window pool is not touched. -/
def TagApi.remove (st : TagWorld) (tags_to_remove : List Tag) : TagWorld :=
  { st with
    windows := st.windows.map (fun ts => shift_remove_all ts tags_to_remove)
    outputs := st.outputs.map (fun op =>
      { op with tags := shift_remove_all op.tags tags_to_remove })
    connector_saved_tags := st.connector_saved_tags.map (fun p =>
      (p.1, shift_remove_all p.2 tags_to_remove)) }

/-- Invariant backing the monotonic tag-id counter: every tag id stored
on an output is below the counter. -/
def tag_ids_below (st : TagWorld) : Prop :=
  ∀ op ∈ st.outputs, ∀ t ∈ op.tags, t.id < st.next_tag_id

/-! ## Output power management (src/protocol/output_power_management.rs) -/

/-- Embedding of struct OutputPower (output_power_management.rs, lines
30-33): the ZwlrOutputPowerV1 resource (identified by a number) and the
destroyed flag consulted by the Drop impl. -/
structure OutputPower where
  resource : Nat
  destroyed : Bool
deriving DecidableEq

/-- Protocol events a power controller resource can receive. -/
inductive PowerEvent where
  | failed (resource : Nat)
  | modeOn (resource : Nat)
  | modeOff (resource : Nat)
deriving DecidableEq

/-- Embedding of the Drop impl for OutputPower
(output_power_management.rs, lines 43-49): dropping a controller that was
not marked destroyed sends failed on it. -/
def drop_output_power (p : OutputPower) : List PowerEvent :=
  if !p.destroyed then [.failed p.resource] else []

/-- Embedding of OutputPowerManagementState: the clients map from outputs
(identified by a number) to their power controllers; at most one
controller per output. -/
structure OutputPowerManagementState where
  clients : List (Nat × OutputPower)
deriving DecidableEq

/-- Embedding of OutputPowerManagementState::output_removed
(output_power_management.rs, lines 77-79): the entry for the output is
removed from the map, which drops its OutputPower; the returned list
collects the protocol events that Drop emits. -/
def OutputPowerManagementState.output_removed (st : OutputPowerManagementState)
    (output : Nat) : OutputPowerManagementState × List PowerEvent :=
  (⟨st.clients.filter (fun e => !(e.1 == output))⟩,
    (st.clients.filter (fun e => e.1 == output)).flatMap (fun e => drop_output_power e.2))

/-- Embedding of the Destroy request arm and the destroyed callback of
the Dispatch impl for ZwlrOutputPowerV1 (output_power_management.rs,
lines 221-248): retain marks matching controllers destroyed before
dropping them, so the Drop impl stays silent; the returned list collects
the protocol events emitted. -/
def OutputPowerManagementState.destroy_controller (st : OutputPowerManagementState)
    (resource : Nat) : OutputPowerManagementState × List PowerEvent :=
  (⟨st.clients.filter (fun e => !(e.2.resource == resource))⟩,
    (st.clients.filter (fun e => e.2.resource == resource)).flatMap
      (fun e => drop_output_power { e.2 with destroyed := true }))

/-! ## Helper lemmas -/

/-- Erasing tags that do not occur in an ordered tag set leaves it
unchanged. -/
theorem shift_remove_all_of_disjoint (S N : List Tag) (h : ∀ t ∈ N, t ∉ S) :
    shift_remove_all S N = S := by
  induction N generalizing S with
  | nil => rfl
  | cons n N ih =>
    unfold shift_remove_all
    simp only [List.foldl_cons]
    rw [List.erase_of_not_mem (h n (by simp))]
    exact ih S (fun t ht => h t (by simp [ht]))

/-- Erasing a batch of appended tags, none of which occurs in the
original set, restores the original set. -/
theorem shift_remove_all_append (S N : List Tag) (h : ∀ t ∈ N, t ∉ S) :
    shift_remove_all (S ++ N) N = S := by
  induction N with
  | nil => simp [shift_remove_all]
  | cons n N ih =>
    unfold shift_remove_all
    simp only [List.foldl_cons]
    rw [List.erase_append_right _ (h n (by simp)), List.erase_cons_head]
    exact ih (fun t ht => h t (by simp [ht]))

/-- Every tag created from counter value n has an id at least n. -/
theorem make_new_tags_le_id (n : Nat) (names : List String) :
    ∀ t ∈ make_new_tags n names, n ≤ t.id := by
  induction names generalizing n with
  | nil => intro t ht; simp [make_new_tags] at ht
  | cons a rest ih =>
    intro t ht
    simp only [make_new_tags, List.mem_cons] at ht
    rcases ht with h | h
    · rw [h]
    · exact Nat.le_of_succ_le (ih (n + 1) t h)

/-! ## Claim theorems -/

/-- Claim C1 (code_bug evidence): an unmapped window in the
waiting-for-tags state with no tags commits while the focused output has
zero tags. With a buffer attached, CompositorHandler::commit removes the
window from the unmapped pool and invokes map_new_window (which the FIXME
at src/handlers.rs lines 190-191 records as crashing in exactly this
situation), rather than refusing to map and holding the window in the
unmapped pool as the claim states; only a commit without a buffer leaves
the window queued. -/
theorem commit_zero_tags_buffer_attempts_map :
    commit_unmapped true (some []) ⟨1, .waitingForTags, [], none⟩
      = .mapAttempted ⟨1, .waitingForTags, [], none⟩
    ∧ commit_unmapped false (some []) ⟨1, .waitingForTags, [], none⟩
      = .stillQueued ⟨1, .waitingForTags, [], none⟩ := by decide

/-- Claim C2: whenever the polled lock-check closure registered by
SessionLockHandler::lock confirms the lock to the requester (invokes
locker.lock(), transitioning Locking to Locked), every output's blanking
state is Blanked at that moment. -/
theorem lock_confirmed_only_when_all_blanked (w : LockWorld)
    (h : (lock_check_cycle w).2 = true) : all_outputs_blanked w = true := by
  unfold lock_check_cycle at h
  by_cases hc : (w.lock_check_scheduled && lock_check_pred w) = true
  · rw [if_pos hc] at h
    simp only [] at h
    have hp : lock_check_pred w = true := (Bool.and_eq_true _ _ |>.mp hc).2
    unfold lock_check_pred at hp
    cases hls : w.lock_state with
    | unlocked => simp [lock_check_run, hls] at h
    | locking l =>
      rw [hls] at hp
      simpa [LockState.is_locking] using hp
    | locked => simp [lock_check_run, hls] at h
  · rw [if_neg hc] at h
    simp at h

/-- Witness for claim C2 at a concrete state: Locking with one blanked
output, the check outstanding. -/
theorem lock_confirmed_only_when_all_blanked_witness :
    (lock_check_cycle ⟨.locking 1, [⟨.blanked, none⟩], none, true⟩).2 = true
    ∧ all_outputs_blanked ⟨.locking 1, [⟨.blanked, none⟩], none, true⟩ = true :=
  ⟨by decide, lock_confirmed_only_when_all_blanked _ (by decide)⟩

/-- Claim C3 (counterexample): with last presentation at 5 ns, a 10 ns
refresh interval, VRR off, and a query at 15 ns (exactly one interval
after the last presentation), the clock returns 10 ns, not the 0 ns the
claim's ceiling formula gives: the code computes floor(delta/interval)+1
intervals, which differs from the ceiling exactly when delta is a
multiple of the interval. -/
theorem time_to_next_ceil_formula_cex :
    FrameClock.time_to_next_presentation ⟨some 5, some 10, false⟩ 15
      ≠ spec_ceil_next_presentation 5 10 15 := by decide

/-- Claim C3 (amended): for a clock with a set refresh interval and a
recorded last presentation, queried at now with last < now and VRR off,
the result is (last + (floor((now - last) / interval) + 1) * interval) -
now; with no refresh interval or no prior presentation the query returns
zero. -/
theorem time_to_next_presentation_formula (last interval now : Nat)
    (hpos : 0 < interval) (hlt : last < now)
    (hbound : now - last + interval < 2 ^ 64) :
    FrameClock.time_to_next_presentation ⟨some last, some interval, false⟩ now
      = last + ((now - last) / interval + 1) * interval - now
    ∧ (∀ (lp : Option Nat) (v : Bool),
        FrameClock.time_to_next_presentation ⟨lp, none, v⟩ now = 0)
    ∧ (∀ (iv : Option Nat) (v : Bool),
        FrameClock.time_to_next_presentation ⟨none, iv, v⟩ now = 0) := by
  refine ⟨?_, fun lp v => rfl, fun iv v => by cases iv <;> rfl⟩
  have h1 : ¬ now ≤ last := by omega
  simp only [FrameClock.time_to_next_presentation, h1, if_false, false_and, ite_false]
  have hd : (now - last) % 2 ^ 64 = now - last := Nat.mod_eq_of_lt (by omega)
  rw [hd]
  have hq : ((now - last) / interval) * interval ≤ now - last := Nat.div_mul_le_self _ _
  have hnext : ((now - last) / interval + 1) * interval
      = ((now - last) / interval) * interval + interval := by ring
  rw [hnext]
  rw [Nat.mod_eq_of_lt (by omega)]
  simp

/-- Witness for claim C3 at last = 5, interval = 10, now = 27. -/
theorem time_to_next_presentation_formula_witness :
    0 < 10 ∧ 5 < 27 ∧ 27 - 5 + 10 < 2 ^ 64
    ∧ FrameClock.time_to_next_presentation ⟨some 5, some 10, false⟩ 27
        = 5 + ((27 - 5) / 10 + 1) * 10 - 27 :=
  ⟨by decide, by decide, by norm_num,
    (time_to_next_presentation_formula 5 10 27 (by decide) (by decide) (by norm_num)).1⟩

/-- Claim C4 (counterexample): started with real uid/gid 1000 but
effective uid/gid 0 (the sudo situation the claim describes) and without
allow_root, main takes the refusal branch and returns Ok(()), so the
process exits with code 0 — not the non-zero exit code the claim
states. -/
theorem elevated_refusal_exit_code_cex :
    main_privilege_gate 1000 0 1000 0 false = .exited 0 := by decide

/-- Claim C4 (amended): with elevated privileges and without allow_root,
the compositor fails to start but the process exits with code zero (main
returns Ok(()) from the refusal branch). -/
theorem elevated_refusal_exits_zero (uid euid gid egid : Nat)
    (h : has_elevated_privileges uid euid gid egid = true) :
    main_privilege_gate uid euid gid egid false = .exited 0 := by
  unfold main_privilege_gate
  rw [h]
  rfl

/-- Witness for claim C4 at uid 1000, euid 0, gid 1000, egid 0. -/
theorem elevated_refusal_exits_zero_witness :
    has_elevated_privileges 1000 0 1000 0 = true
    ∧ main_privilege_gate 1000 0 1000 0 false = .exited 0 :=
  ⟨by decide, elevated_refusal_exits_zero 1000 0 1000 0 (by decide)⟩

/-- Claim C5 (counterexample): output B holds tag (0, b1); an unmapped
waiting-for-tags window targets output B and carries that tag. Adding tag
new to output A re-seeds that window with the first new tag (5, new),
although the claim states that waiting-for-tags windows targeting a
different output keep their tag sets unchanged. -/
theorem tag_add_seeds_other_output_cex :
    ((TagApi.add
        ⟨[⟨"A", []⟩, ⟨"B", [⟨0, "b1"⟩]⟩],
          [⟨1, .waitingForTags, [⟨0, "b1"⟩], some "B"⟩], [], [], 5⟩
        ["new"] "A").1.unmapped_windows.map (fun u => u.tags)
      = [[Tag.mk 5 "new"]])
    ∧ ((TagApi.add
        ⟨[⟨"A", []⟩, ⟨"B", [⟨0, "b1"⟩]⟩],
          [⟨1, .waitingForTags, [⟨0, "b1"⟩], some "B"⟩], [], [], 5⟩
        ["new"] "A").1.unmapped_windows.map (fun u => u.tags)
      ≠ [[Tag.mk 0 "b1"]]) := by decide

/-- Claim C5 (amended): adding a non-empty batch of tag names to an
existing output seeds every unmapped window in the waiting-for-tags state
— regardless of which output it targets — with exactly the first newly
created tag and hands it to the rule gate (awaiting-rules); unmapped
windows in any other state are unchanged. -/
theorem tag_add_seeds_all_waiting (st : TagWorld) (first : String)
    (rest : List String) (output_name : String)
    (hex : (st.outputs.find? (fun op => op.name == output_name)).isSome = true) :
    List.Forall₂
      (fun u v =>
        (u.ustate = .waitingForTags →
          v = { u with tags := [Tag.mk st.next_tag_id first], ustate := .awaitingRules })
        ∧ (u.ustate ≠ .waitingForTags → v = u))
      st.unmapped_windows
      (TagApi.add st (first :: rest) output_name).1.unmapped_windows := by
  obtain ⟨op0, hop⟩ := Option.isSome_iff_exists.mp hex
  unfold TagApi.add
  rw [hop]
  simp only [make_new_tags, List.isEmpty_cons, Bool.not_false, if_true, List.head?_cons,
    Option.toList_some]
  generalize st.unmapped_windows = l
  induction l with
  | nil => exact List.Forall₂.nil
  | cons u t ih =>
    refine List.Forall₂.cons ?_ ih
    by_cases hu : u.ustate = .waitingForTags
    · constructor
      · intro _
        simp [hu, request_window_rules]
      · intro hno
        exact absurd hu hno
    · constructor
      · intro hyes
        exact absurd hyes hu
      · intro _
        simp [hu]

/-- Witness for claim C5 at a concrete state with one waiting-for-tags
window targeting output B and one awaiting-rules window. -/
theorem tag_add_seeds_all_waiting_witness :
    ((⟨[⟨"A", []⟩],
        [⟨1, .waitingForTags, [], some "B"⟩, ⟨2, .awaitingRules, [], none⟩],
        [], [], 5⟩ :
        TagWorld).outputs.find? (fun op => op.name == "A")).isSome = true
    ∧ List.Forall₂
        (fun u v =>
          (u.ustate = .waitingForTags →
            v = { u with tags := [Tag.mk 5 "n1"], ustate := .awaitingRules })
          ∧ (u.ustate ≠ .waitingForTags → v = u))
        [⟨1, .waitingForTags, [], some "B"⟩, ⟨2, .awaitingRules, [], none⟩]
        (TagApi.add
          ⟨[⟨"A", []⟩],
            [⟨1, .waitingForTags, [], some "B"⟩, ⟨2, .awaitingRules, [], none⟩],
            [], [], 5⟩
          ["n1", "n2"] "A").1.unmapped_windows :=
  ⟨by decide,
    tag_add_seeds_all_waiting
      ⟨[⟨"A", []⟩],
        [⟨1, .waitingForTags, [], some "B"⟩, ⟨2, .awaitingRules, [], none⟩],
        [], [], 5⟩
      "n1" ["n2"] "A" (by decide)⟩

/-- Claim C6: a session-lock request arriving in any non-Unlocked state
is denied by the early return in SessionLockHandler::lock, and the
compositor state — lock state, every output's blanking state and lock
surface, the lock-surface focus, and the outstanding-check flag — is
exactly as before the request. -/
theorem lock_request_denied_unchanged (w : LockWorld) (confirmation : Nat)
    (h : w.lock_state ≠ .unlocked) :
    SessionLockHandler.lock w confirmation = w := by
  unfold SessionLockHandler.lock
  cases hls : w.lock_state with
  | unlocked => exact absurd hls h
  | locking l => simp [hls, LockState.is_locking, LockState.is_locked]
  | locked => simp [hls, LockState.is_locking, LockState.is_locked]

/-- Witness for claim C6 at a concrete Locked state with a
not-yet-blanked output holding a lock surface. -/
theorem lock_request_denied_unchanged_witness :
    (⟨.locked, [⟨.notBlanked, some 3⟩], some 3, false⟩ : LockWorld).lock_state
      ≠ .unlocked
    ∧ SessionLockHandler.lock ⟨.locked, [⟨.notBlanked, some 3⟩], some 3, false⟩ 9
      = ⟨.locked, [⟨.notBlanked, some 3⟩], some 3, false⟩ :=
  ⟨by decide,
    lock_request_denied_unchanged ⟨.locked, [⟨.notBlanked, some 3⟩], some 3, false⟩ 9
      (by decide)⟩

/-- Claim C7 (counterexample): removing output 0, which has a live
(non-destroyed) power controller with resource id 7, drops the controller
without marking it destroyed, so the Drop impl sends a failed event on it
— contradicting the claim that no further protocol event is sent on
output removal. -/
theorem output_removed_sends_failed_cex :
    (OutputPowerManagementState.output_removed ⟨[(0, ⟨7, false⟩)]⟩ 0).2
      = [.failed 7]
    ∧ (OutputPowerManagementState.output_removed ⟨[(0, ⟨7, false⟩)]⟩ 0).2 ≠ [] := by
  decide

/-- Claim C7 (amended): destroying a controller resource releases it with
no further protocol events (retain marks it destroyed before the drop),
while removing an output releases its controllers and the Drop impl sends
a final failed event on each controller not already destroyed. -/
theorem controller_release_events (st : OutputPowerManagementState)
    (resource output : Nat) (c : OutputPower) :
    ((OutputPowerManagementState.destroy_controller st resource).2 = []
      ∧ ∀ e ∈ (OutputPowerManagementState.destroy_controller st resource).1.clients,
          e.2.resource ≠ resource)
    ∧ (((output, c) ∈ st.clients → c.destroyed = false →
          PowerEvent.failed c.resource
            ∈ (OutputPowerManagementState.output_removed st output).2)
      ∧ ∀ e ∈ (OutputPowerManagementState.output_removed st output).1.clients,
          e.1 ≠ output) := by
  refine ⟨⟨?_, ?_⟩, ?_, ?_⟩
  · unfold OutputPowerManagementState.destroy_controller
    simp [drop_output_power]
  · intro e he
    unfold OutputPowerManagementState.destroy_controller at he
    simp only [List.mem_filter] at he
    simpa using he.2
  · intro hmem hlive
    unfold OutputPowerManagementState.output_removed
    simp only [List.mem_flatMap]
    refine ⟨(output, c), List.mem_filter.mpr ⟨hmem, by simp⟩, ?_⟩
    simp [drop_output_power, hlive]
  · intro e he
    unfold OutputPowerManagementState.output_removed at he
    simp only [List.mem_filter] at he
    simpa using he.2

/-- Witness for claim C7 at a single live controller (resource 7) for
output 0. -/
theorem controller_release_events_witness :
    (0, OutputPower.mk 7 false) ∈ ([(0, ⟨7, false⟩)] : List (Nat × OutputPower))
    ∧ PowerEvent.failed 7
        ∈ (OutputPowerManagementState.output_removed ⟨[(0, ⟨7, false⟩)]⟩ 0).2 :=
  ⟨by decide,
    (controller_release_events ⟨[(0, ⟨7, false⟩)]⟩ 7 0 ⟨7, false⟩).2.1 (by decide) rfl⟩

/-- Claim C8 (counterexample): calling set_vrr with the value the flag
already has (here false) returns early, so the last presentation time is
kept — not cleared as the claim states for every boolean. -/
theorem set_vrr_same_keeps_last_cex :
    (FrameClock.set_vrr ⟨some 5, some 10, false⟩ false).last_presentation_time
      = some 5 := by decide

/-- Claim C8 (amended): calling set_vrr with a value different from the
current flag clears the last presentation time, so the next
time_to_next_presentation query returns zero; calling it with the current
value leaves the clock entirely unchanged. -/
theorem set_vrr_clears_last_on_change (fc : FrameClock) (v : Bool) (now : Nat) :
    (fc.vrr ≠ v →
      (fc.set_vrr v).last_presentation_time = none
      ∧ (fc.set_vrr v).time_to_next_presentation now = 0)
    ∧ (fc.vrr = v → fc.set_vrr v = fc) := by
  obtain ⟨l, r, b⟩ := fc
  constructor
  · intro h
    unfold FrameClock.set_vrr
    rw [if_neg h]
    exact ⟨rfl, by cases r <;> rfl⟩
  · intro h
    unfold FrameClock.set_vrr
    rw [if_pos h]

/-- Witness for claim C8: flipping VRR on from off clears the recorded
presentation time and the next query returns zero. -/
theorem set_vrr_clears_last_on_change_witness :
    FrameClock.vrr ⟨some 5, some 10, false⟩ ≠ true
    ∧ (FrameClock.set_vrr ⟨some 5, some 10, false⟩ true).last_presentation_time
        = none
    ∧ (FrameClock.set_vrr ⟨some 5, some 10, false⟩ true).time_to_next_presentation 99
        = 0 :=
  ⟨by decide,
    ((set_vrr_clears_last_on_change ⟨some 5, some 10, false⟩ true 99).1 (by decide)).1,
    ((set_vrr_clears_last_on_change ⟨some 5, some 10, false⟩ true 99).1 (by decide)).2⟩

/-- Claim C9: adding a batch of freshly-named tags to an output and then
removing exactly the returned new tags restores every output's tag list
to its pre-existing content in its original order, given the tag-id
counter invariant (every stored tag id is below the counter, which
Tag::new maintains). -/
theorem tag_add_remove_roundtrip (st : TagWorld) (names : List String)
    (output_name : String) (hids : tag_ids_below st) :
    (TagApi.remove (TagApi.add st names output_name).1
        (TagApi.add st names output_name).2).outputs
      = st.outputs := by
  unfold TagApi.add
  cases hfind : st.outputs.find? (fun op => op.name == output_name) with
  | none =>
    unfold TagApi.remove
    simp only []
    have hmap : (fun (op : OutputTagsSt) =>
        { op with tags := shift_remove_all op.tags [] }) = fun op => op := by
      funext op
      rfl
    rw [hmap]
    exact List.map_id' st.outputs
  | some op0 =>
    unfold TagApi.remove
    simp only [List.map_map]
    have hfresh : ∀ op ∈ st.outputs, ∀ t ∈ make_new_tags st.next_tag_id names,
        t ∉ op.tags := by
      intro op hopmem t htmem htin
      have h1 : t.id < st.next_tag_id := hids op hopmem t htin
      have h2 : st.next_tag_id ≤ t.id := make_new_tags_le_id _ _ t htmem
      omega
    have hcongr : ∀ op ∈ st.outputs,
        ({ (if op.name == output_name then
              { op with tags := op.tags ++ make_new_tags st.next_tag_id names }
            else op) with
          tags := shift_remove_all
            (if op.name == output_name then
                { op with tags := op.tags ++ make_new_tags st.next_tag_id names }
              else op).tags
            (make_new_tags st.next_tag_id names) } : OutputTagsSt) = op := by
      intro op hopmem
      by_cases hname : (op.name == output_name) = true
      · simp only [hname, if_true]
        rw [shift_remove_all_append _ _ (hfresh op hopmem)]
      · simp only [hname]
        rw [if_neg (by simp [hname])]
        rw [shift_remove_all_of_disjoint _ _ (hfresh op hopmem)]
    calc st.outputs.map _
        = st.outputs.map (fun op => op) := List.map_congr_left hcongr
      _ = st.outputs := List.map_id' st.outputs

/-- Witness for claim C9 at a concrete state: one output holding tag
(0, x), counter at 1; adding then removing tags n1, n2 restores the
output list. -/
theorem tag_add_remove_roundtrip_witness :
    tag_ids_below ⟨[⟨"A", [⟨0, "x"⟩]⟩], [], [], [], 1⟩
    ∧ (TagApi.remove
        (TagApi.add ⟨[⟨"A", [⟨0, "x"⟩]⟩], [], [], [], 1⟩ ["n1", "n2"] "A").1
        (TagApi.add ⟨[⟨"A", [⟨0, "x"⟩]⟩], [], [], [], 1⟩ ["n1", "n2"] "A").2).outputs
      = [⟨"A", [⟨0, "x"⟩]⟩] :=
  ⟨by unfold tag_ids_below; decide,
    tag_add_remove_roundtrip ⟨[⟨"A", [⟨0, "x"⟩]⟩], [], [], [], 1⟩ ["n1", "n2"] "A"
      (by unfold tag_ids_below; decide)⟩

/-- Claim C10: FrameClock::presented with a zero timestamp leaves the
clock unchanged, while any nonzero timestamp overwrites the last
presentation time with exactly that value, with no monotonicity check. -/
theorem presented_zero_ignored_nonzero_stored (fc : FrameClock) (t : Nat) :
    fc.presented 0 = fc
    ∧ (t ≠ 0 → (fc.presented t).last_presentation_time = some t) := by
  constructor
  · rfl
  · intro h
    unfold FrameClock.presented
    rw [if_neg h]

/-- Witness for claim C10: timestamp 3, earlier than the recorded
presentation at 10, still overwrites it. -/
theorem presented_zero_ignored_nonzero_stored_witness :
    (3 : Nat) ≠ 0
    ∧ (FrameClock.presented ⟨some 10, some 7, false⟩ 3).last_presentation_time
      = some 3 :=
  ⟨by decide,
    (presented_zero_ignored_nonzero_stored ⟨some 10, some 7, false⟩ 3).2 (by decide)⟩

end Pinnacle
